import Mathlib

/-!
Shallow embedding of crates/voiceflow-ffi/src/lib.rs (VoiceFlow C FFI layer).

Modelling conventions:
- A C string pointer received from the caller is `CStrPtr`: `null`, `valid s`
  (valid UTF-8 contents `s`), or `invalid` (non-UTF-8 bytes, so that
  CStr::to_str fails).
- A `*mut c_char` produced by the layer is `Option String`: `none` is the null
  pointer, `some s` an owned buffer with contents `s`.  `CString::new`
  (which fails exactly when the bytes contain an interior NUL) is `cStringNew`.
- The debug sink (log_debug appending to /tmp/voiceflow_debug.log) is the list
  of `LogEvent`s a call emits; the float formatting inside the messages is not
  modelled, each event carries the data that the source interpolates.
- The pipeline collaborator (voiceflow_core::Pipeline) is external to the
  crate; its behaviour on one call is a `PipelineOutcome` parameter, a function
  of the decoded optional context, covering normal success, a reported error,
  and a Rust panic with its downcast payload (`none` when the payload is
  neither &str nor String, in which case the source falls back to the text
  "Unknown panic").
- u64 timing fields are `Nat`: the layer copies them from the collaborator and
  never computes with them, so no overflow arithmetic arises.
-/

/-- A C string pointer argument: null, valid UTF-8, or undecodable bytes. -/
inductive CStrPtr where
  | null : CStrPtr
  | valid (s : String) : CStrPtr
  | invalid : CStrPtr
deriving DecidableEq

/-- True when the string contains an interior NUL byte, the exact condition
under which Rust CString::new rejects it. -/
def hasInteriorNul (s : String) : Bool :=
  s.data.any (fun c => c = Char.ofNat 0)

/-- Embedding of CString::new(s).map(into_raw).unwrap_or(null): the owned
buffer, or the null pointer when the text has an interior NUL. -/
def cStringNew (s : String) : Option String :=
  if hasInteriorNul s then none else some s

/-- Embedding of CStr::to_str on an optional context pointer: null and
non-UTF-8 input both decode to an absent context (lib.rs lines 141-148). -/
def decodeContext : CStrPtr → Option String
  | CStrPtr.null => none
  | CStrPtr.valid s => some s
  | CStrPtr.invalid => none

/-- One line appended to the debug sink, carrying the interpolated data. -/
inductive LogEvent where
  | initCalled : LogEvent
  | configLoaded : LogEvent
  | creatingPipeline : LogEvent
  | pipelineCreated : LogEvent
  | initComplete : LogEvent
  | initLoadFailed (e : String) : LogEvent
  | pipelineCreateFailed (e : String) : LogEvent
  | processCalled (samples : Nat) : LogEvent
  | invalidInput : LogEvent
  | audioStats (samples : Nat) : LogEvent
  | callingProcess : LogEvent
  | processSuccess (raw fmt : String) : LogEvent
  | processFailed (e : String) : LogEvent
  | panicCaught (fn desc : String) : LogEvent
deriving DecidableEq

/-- Timings struct of the pipeline result (field names from the source). -/
structure Timings where
  transcription_ms : Nat
  llm_formatting_ms : Nat
  total_ms : Nat
deriving DecidableEq

/-- Successful output of pipeline.process (the external collaborator). -/
structure PipelineOutput where
  formatted_text : String
  raw_transcript : String
  timings : Timings
deriving DecidableEq

/-- Behaviour of the wrapped body of voiceflow_process on one call: the
collaborator returns Ok, returns Err, or the body panics with the given
downcast payload. -/
inductive PipelineOutcome where
  | ok (out : PipelineOutput) : PipelineOutcome
  | err (e : String) : PipelineOutcome
  | panicked (payload : Option String) : PipelineOutcome
deriving DecidableEq

/-- The repr-C VoiceFlowResult struct returned by value to the caller. -/
structure VoiceFlowResult where
  success : Bool
  formatted_text : Option String
  raw_transcript : Option String
  error_message : Option String
  transcription_ms : Nat
  llm_ms : Nat
  total_ms : Nat
deriving DecidableEq

/-- Embedding of error_result (lib.rs lines 226-238). -/
def error_result (msg : String) : VoiceFlowResult :=
  { success := false
    formatted_text := none
    raw_transcript := none
    error_message := cStringNew msg
    transcription_ms := 0
    llm_ms := 0
    total_ms := 0 }

/-- Message extracted from a caught panic payload: the downcast &str or String
when present, otherwise the fixed fallback text (lib.rs lines 179-185). -/
def panicDescription : Option String → String
  | some s => s
  | none => "Unknown panic"

/-- Observable effect of one voiceflow_process call: the struct returned by
value, the debug-sink lines emitted, and whether the wrapped body
(the catch_unwind closure) was entered at all. -/
structure ProcessTrace where
  result : VoiceFlowResult
  log : List LogEvent
  enteredBody : Bool
deriving DecidableEq

/-- Embedding of voiceflow_process (lib.rs lines 113-190).  handleNull and
audioNull are the null tests on the two pointer arguments; audioLen is
audio_len; outcome gives the wrapped body result as a function of the
decoded context passed to the collaborator. -/
def voiceflow_process (handleNull audioNull : Bool) (audioLen : Nat)
    (context : CStrPtr) (outcome : Option String → PipelineOutcome) :
    ProcessTrace :=
  let log0 := [LogEvent.processCalled audioLen]
  if handleNull || audioNull then
    { result := error_result "Invalid handle or audio data"
      log := log0 ++ [LogEvent.invalidInput]
      enteredBody := false }
  else
    let log1 := log0 ++ [LogEvent.audioStats audioLen, LogEvent.callingProcess]
    match outcome (decodeContext context) with
    | PipelineOutcome.ok out =>
        { result :=
            { success := true
              formatted_text := cStringNew out.formatted_text
              raw_transcript := cStringNew out.raw_transcript
              error_message := none
              transcription_ms := out.timings.transcription_ms
              llm_ms := out.timings.llm_formatting_ms
              total_ms := out.timings.total_ms }
          log := log1 ++ [LogEvent.processSuccess out.raw_transcript out.formatted_text]
          enteredBody := true }
    | PipelineOutcome.err e =>
        { result := error_result e
          log := log1 ++ [LogEvent.processFailed e]
          enteredBody := true }
    | PipelineOutcome.panicked payload =>
        { result := error_result ("Internal error: " ++ panicDescription payload)
          log := log1 ++ [LogEvent.panicCaught "voiceflow_process" (panicDescription payload)]
          enteredBody := true }

/-- Embedding of voiceflow_free_result (lib.rs lines 197-207): the list of
owned buffers the call reclaims, each non-null field once, null fields
skipped. -/
def voiceflow_free_result (r : VoiceFlowResult) : List String :=
  r.formatted_text.toList ++ r.raw_transcript.toList ++ r.error_message.toList

/-- The LLM model enumeration (voiceflow_core::config::LlmModel), with the
variants the FFI match tables enumerate; Custom carries its payload. -/
inductive LlmModel where
  | Qwen3_1_7B : LlmModel
  | Qwen3_4B : LlmModel
  | SmolLM3_3B : LlmModel
  | Gemma2_2B : LlmModel
  | Phi2 : LlmModel
  | Custom (path : String) : LlmModel
deriving DecidableEq

/-- The STT engine enumeration (voiceflow_core::config::SttEngine). -/
inductive SttEngine where
  | Whisper : SttEngine
  | Moonshine : SttEngine
deriving DecidableEq

/-- The Moonshine model enumeration (voiceflow_core::config::MoonshineModel). -/
inductive MoonshineModel where
  | Tiny : MoonshineModel
  | Base : MoonshineModel
deriving DecidableEq

/-- Modelled from the spec: the Configuration Snapshot (spec section 3), the
fields of voiceflow_core::Config that the FFI layer reads and writes.
voiceflow_core is not part of the sources under verification. -/
structure Config where
  llm_model : LlmModel
  stt_engine : SttEngine
  moonshine_model : MoonshineModel
deriving DecidableEq

/-- Modelled from the spec: the default configuration used when no config file
exists or loading fails (Config::default in voiceflow_core).  The concrete
values are not fixed by the spec and no claim depends on them. -/
def defaultConfig : Config :=
  { llm_model := LlmModel.Qwen3_1_7B
    stt_engine := SttEngine.Whisper
    moonshine_model := MoonshineModel.Tiny }

/-- Modelled from the spec: the state of the on-disk configuration store read
by Config::load(None): no file, an unparseable file, or a parsed snapshot. -/
inductive ConfigStore where
  | absent : ConfigStore
  | corrupt : ConfigStore
  | saved (c : Config) : ConfigStore
deriving DecidableEq

/-- Modelled from the spec: Config::load with no explicit path falls back to
defaults when no file exists and signals failure only when the file exists
but cannot be parsed (spec section 4.2). -/
def configLoad : ConfigStore → Except String Config
  | ConfigStore.absent => Except.ok defaultConfig
  | ConfigStore.corrupt => Except.error "failed to parse config"
  | ConfigStore.saved c => Except.ok c

/-- Embedding of Config::load(None).unwrap_or_default() as used by every
configuration get/set entry point. -/
def loadOrDefault (store : ConfigStore) : Config :=
  match configLoad store with
  | Except.ok c => c
  | Except.error _ => defaultConfig

/-- Modelled from the spec: config.save(None) persists the snapshot and
reports success; saveOk is whether the disk write succeeds (external).  On
failure the store is left as it was. -/
def configSave (saveOk : Bool) (c : Config) (store : ConfigStore) :
    Bool × ConfigStore :=
  if saveOk then (true, ConfigStore.saved c) else (false, store)

/-- The id match table shared verbatim by voiceflow_model_info (lib.rs lines
293-300) and voiceflow_current_model (lines 345-352). -/
def llmModelId : LlmModel → String
  | LlmModel.Qwen3_1_7B => "qwen3-1.7b"
  | LlmModel.Qwen3_4B => "qwen3-4b"
  | LlmModel.SmolLM3_3B => "smollm3-3b"
  | LlmModel.Gemma2_2B => "gemma2-2b"
  | LlmModel.Phi2 => "phi-2"
  | LlmModel.Custom _ => "custom"

/-- The id parse table shared verbatim by voiceflow_set_model (lib.rs lines
374-381) and voiceflow_model_download_url (lines 405-412); note it has no
arm for "custom". -/
def parseLlmModel (s : String) : Option LlmModel :=
  if s = "qwen3-1.7b" then some LlmModel.Qwen3_1_7B
  else if s = "qwen3-4b" then some LlmModel.Qwen3_4B
  else if s = "smollm3-3b" then some LlmModel.SmolLM3_3B
  else if s = "gemma2-2b" then some LlmModel.Gemma2_2B
  else if s = "phi-2" then some LlmModel.Phi2
  else none

/-- Embedding of voiceflow_current_model (lib.rs lines 341-355). -/
def voiceflow_current_model (store : ConfigStore) : Option String :=
  cStringNew (llmModelId (loadOrDefault store).llm_model)

/-- Embedding of voiceflow_set_model (lib.rs lines 362-386): returns the bool
result together with the configuration store after the call. -/
def voiceflow_set_model (model_id : CStrPtr) (saveOk : Bool)
    (store : ConfigStore) : Bool × ConfigStore :=
  match model_id with
  | CStrPtr.null => (false, store)
  | CStrPtr.invalid => (false, store)
  | CStrPtr.valid s =>
    match parseLlmModel s with
    | none => (false, store)
    | some m =>
      let config := loadOrDefault store
      configSave saveOk { config with llm_model := m } store

/-- Embedding of voiceflow_model_download_url (lib.rs lines 393-424).  hfRepo
and fname stand for LlmModel::hf_repo and LlmModel::filename, collaborator
functions of voiceflow_core. -/
def voiceflow_model_download_url (model_id : CStrPtr)
    (hfRepo : LlmModel → Option String) (fname : LlmModel → String) :
    Option String :=
  match model_id with
  | CStrPtr.null => none
  | CStrPtr.invalid => none
  | CStrPtr.valid s =>
    match parseLlmModel s with
    | none => none
    | some m =>
      match hfRepo m with
      | some repo =>
          cStringNew ("https://huggingface.co/" ++ repo ++ "/resolve/main/" ++ fname m)
      | none => none

/-- The repr-C ModelInfo struct (lib.rs lines 242-248); size_gb is a c_float
carrying a collaborator-supplied constant, modelled as a rational. -/
structure ModelInfo where
  id : Option String
  display_name : Option String
  filename : Option String
  size_gb : Rat
  is_downloaded : Bool
deriving DecidableEq

/-- Embedding of voiceflow_model_count (lib.rs lines 263-266); models stands
for LlmModel::all_models(), a catalog owned by voiceflow_core. -/
def voiceflow_model_count (models : List LlmModel) : Nat :=
  models.length

/-- Embedding of voiceflow_model_info (lib.rs lines 273-309).  displayName,
fname and sizeGb are the collaborator accessors; probe is the filesystem
check models_dir().join(filename).exists(). -/
def voiceflow_model_info (models : List LlmModel)
    (displayName fname : LlmModel → String) (sizeGb : LlmModel → Rat)
    (probe : LlmModel → Bool) (index : Nat) : ModelInfo :=
  if h : index < models.length then
    let model := models.get ⟨index, h⟩
    { id := cStringNew (llmModelId model)
      display_name := cStringNew (displayName model)
      filename := cStringNew (fname model)
      size_gb := sizeGb model
      is_downloaded := probe model }
  else
    { id := none
      display_name := none
      filename := none
      size_gb := 0
      is_downloaded := false }

/-- Embedding of voiceflow_free_model_info (lib.rs lines 316-326): the owned
buffers reclaimed, null fields skipped. -/
def voiceflow_free_model_info (info : ModelInfo) : List String :=
  info.id.toList ++ info.display_name.toList ++ info.filename.toList

/-- The repr-C MoonshineModelInfo struct (lib.rs lines 516-521). -/
structure MoonshineModelInfo where
  id : Option String
  display_name : Option String
  size_mb : Nat
  is_downloaded : Bool
deriving DecidableEq

/-- Embedding of voiceflow_moonshine_model_count (lib.rs lines 525-527). -/
def voiceflow_moonshine_model_count : Nat := 2

/-- Embedding of voiceflow_moonshine_model_info (lib.rs lines 534-562).
displayName and sizeMb are collaborator accessors; downloadedFor is
Config::moonshine_model_downloaded_for, a filesystem probe. -/
def voiceflow_moonshine_model_info (store : ConfigStore)
    (displayName : MoonshineModel → String) (sizeMb : MoonshineModel → Nat)
    (downloadedFor : Config → MoonshineModel → Bool) (index : Nat) :
    MoonshineModelInfo :=
  match index with
  | 0 =>
      let config := loadOrDefault store
      { id := cStringNew "tiny"
        display_name := cStringNew (displayName MoonshineModel.Tiny)
        size_mb := sizeMb MoonshineModel.Tiny
        is_downloaded := downloadedFor config MoonshineModel.Tiny }
  | 1 =>
      let config := loadOrDefault store
      { id := cStringNew "base"
        display_name := cStringNew (displayName MoonshineModel.Base)
        size_mb := sizeMb MoonshineModel.Base
        is_downloaded := downloadedFor config MoonshineModel.Base }
  | _ =>
      { id := none
        display_name := none
        size_mb := 0
        is_downloaded := false }

/-- Embedding of voiceflow_free_moonshine_model_info (lib.rs lines 569-576):
the owned buffers reclaimed, null fields skipped. -/
def voiceflow_free_moonshine_model_info (info : MoonshineModelInfo) :
    List String :=
  info.id.toList ++ info.display_name.toList

/-- The opaque handle: a heap allocation owning one pipeline instance.  The
pipeline type is a parameter because the collaborator is external. -/
structure VoiceFlowHandle (P : Type) where
  pipeline : P
deriving DecidableEq

/-- Embedding of voiceflow_init (lib.rs lines 49-104).  loadResult is the
outcome of Config::load on the decoded path, pipelineNew the outcome of
Pipeline::new on the loaded config, and panicked injects a panic of the
wrapped body with its downcast payload (none when no panic occurs).
Returns the handle (none is the null pointer) and the debug-sink lines. -/
def voiceflow_init {P : Type} (config_path : CStrPtr)
    (loadResult : Except String Config)
    (pipelineNew : Config → Except String P)
    (panicked : Option (Option String)) :
    Option (VoiceFlowHandle P) × List LogEvent :=
  let log0 := [LogEvent.initCalled]
  match panicked with
  | some payload =>
      (none, log0 ++ [LogEvent.panicCaught "voiceflow_init" (panicDescription payload)])
  | none =>
    match config_path with
    | CStrPtr.invalid => (none, log0)
    | _ =>
      match loadResult with
      | Except.error e => (none, log0 ++ [LogEvent.initLoadFailed e])
      | Except.ok config =>
        match pipelineNew config with
        | Except.error e =>
            (none, log0 ++ [LogEvent.configLoaded, LogEvent.creatingPipeline,
                            LogEvent.pipelineCreateFailed e])
        | Except.ok p =>
            (some { pipeline := p },
             log0 ++ [LogEvent.configLoaded, LogEvent.creatingPipeline,
                      LogEvent.pipelineCreated, LogEvent.initComplete])

/-- C1, claim as stated, refuted: when the wrapped body of voiceflow_process
panics with payload "boom", the error buffer is not the panic description
"boom" itself but carries the prefix "Internal error: ". -/
theorem C1_counterexample :
    ¬ ((voiceflow_process false false 0 CStrPtr.null
        (fun _ => PipelineOutcome.panicked (some "boom"))).result.error_message
      = some "boom") := by
  decide

/-- C1 (amended): whenever the wrapped body of voiceflow_process panics, the
call still returns a normal VoiceFlowResult by value with success false,
null text buffers, and the description prefixed with "Internal error: " as
its error buffer (null only when that text holds an interior NUL byte);
the description is recorded via the debug sink, and the unwind never
propagates past the entry point (the call always produces a value). -/
theorem C1_panic_contained (audioLen : Nat) (context : CStrPtr)
    (payload : Option String) :
    ((voiceflow_process false false audioLen context
        (fun _ => PipelineOutcome.panicked payload)).result.success = false)
  ∧ ((voiceflow_process false false audioLen context
        (fun _ => PipelineOutcome.panicked payload)).result.formatted_text = none)
  ∧ ((voiceflow_process false false audioLen context
        (fun _ => PipelineOutcome.panicked payload)).result.raw_transcript = none)
  ∧ ((voiceflow_process false false audioLen context
        (fun _ => PipelineOutcome.panicked payload)).result.error_message
      = cStringNew ("Internal error: " ++ panicDescription payload))
  ∧ (LogEvent.panicCaught "voiceflow_process" (panicDescription payload)
      ∈ (voiceflow_process false false audioLen context
          (fun _ => PipelineOutcome.panicked payload)).log) := by
  refine ⟨rfl, rfl, rfl, rfl, ?_⟩
  simp [voiceflow_process]

/-- C2, claim as stated, refuted: when the collaborator reports an error whose
text contains an interior NUL byte, the result has success false but a null
error buffer, so neither side of the claimed exactly-one-of invariant
holds. -/
theorem C2_counterexample :
    ((voiceflow_process false false 0 CStrPtr.null
        (fun _ => PipelineOutcome.err "a\x00b")).result.success = false)
  ∧ ((voiceflow_process false false 0 CStrPtr.null
        (fun _ => PipelineOutcome.err "a\x00b")).result.error_message = none) := by
  decide

/-- C2 (amended): every VoiceFlowResult returned by voiceflow_process
satisfies exactly one of: success true with error_message null, or success
false with formatted_text and raw_transcript null and error_message the
CString encoding of the failure message, which is non-null unless that
message contains an interior NUL byte (then it is null). -/
theorem C2_result_invariant (handleNull audioNull : Bool) (audioLen : Nat)
    (context : CStrPtr) (outcome : Option String → PipelineOutcome) :
    (((voiceflow_process handleNull audioNull audioLen context outcome).result.success = true)
      ∧ ((voiceflow_process handleNull audioNull audioLen context outcome).result.error_message = none))
  ∨ (((voiceflow_process handleNull audioNull audioLen context outcome).result.success = false)
      ∧ ((voiceflow_process handleNull audioNull audioLen context outcome).result.formatted_text = none)
      ∧ ((voiceflow_process handleNull audioNull audioLen context outcome).result.raw_transcript = none)
      ∧ ∃ m, (voiceflow_process handleNull audioNull audioLen context outcome).result.error_message
          = cStringNew m) := by
  unfold voiceflow_process
  cases handleNull <;> cases audioNull <;> simp only [Bool.or_self, Bool.or_true,
    Bool.true_or, Bool.false_or, if_true, if_false, Bool.false_eq_true, ite_true, ite_false]
  case false.false =>
    cases outcome (decodeContext context) with
    | ok out => exact Or.inl ⟨rfl, rfl⟩
    | err e => exact Or.inr ⟨rfl, rfl, rfl, e, rfl⟩
    | panicked payload =>
        exact Or.inr ⟨rfl, rfl, rfl, "Internal error: " ++ panicDescription payload, rfl⟩
  all_goals exact Or.inr ⟨rfl, rfl, rfl, "Invalid handle or audio data", rfl⟩

/-- C3: a call with a null handle or a null audio pointer returns immediately,
without entering the wrapped body, the fixed failure result: success
false, the fixed non-null error buffer, and all three timings zero. -/
theorem C3_null_inputs (handleNull audioNull : Bool) (audioLen : Nat)
    (context : CStrPtr) (outcome : Option String → PipelineOutcome)
    (h : handleNull = true ∨ audioNull = true) :
    ((voiceflow_process handleNull audioNull audioLen context outcome).result
      = error_result "Invalid handle or audio data")
  ∧ ((voiceflow_process handleNull audioNull audioLen context outcome).result.success = false)
  ∧ ((voiceflow_process handleNull audioNull audioLen context outcome).result.error_message
      = some "Invalid handle or audio data")
  ∧ ((voiceflow_process handleNull audioNull audioLen context outcome).result.transcription_ms = 0)
  ∧ ((voiceflow_process handleNull audioNull audioLen context outcome).result.llm_ms = 0)
  ∧ ((voiceflow_process handleNull audioNull audioLen context outcome).result.total_ms = 0)
  ∧ ((voiceflow_process handleNull audioNull audioLen context outcome).enteredBody = false) := by
  have hor : (handleNull || audioNull) = true := by
    cases h with
    | inl h1 => simp [h1]
    | inr h2 => simp [h2]
  unfold voiceflow_process
  rw [hor]
  exact ⟨rfl, rfl, rfl, rfl, rfl, rfl, rfl⟩

/-- C3 witness: the theorem instantiated at a null handle with concrete
audio, context and collaborator behaviour. -/
theorem C3_witness :
    ((voiceflow_process true false 7 CStrPtr.null
        (fun _ => PipelineOutcome.err "x")).result
      = error_result "Invalid handle or audio data")
  ∧ ((voiceflow_process true false 7 CStrPtr.null
        (fun _ => PipelineOutcome.err "x")).result.success = false)
  ∧ ((voiceflow_process true false 7 CStrPtr.null
        (fun _ => PipelineOutcome.err "x")).result.error_message
      = some "Invalid handle or audio data")
  ∧ ((voiceflow_process true false 7 CStrPtr.null
        (fun _ => PipelineOutcome.err "x")).result.transcription_ms = 0)
  ∧ ((voiceflow_process true false 7 CStrPtr.null
        (fun _ => PipelineOutcome.err "x")).result.llm_ms = 0)
  ∧ ((voiceflow_process true false 7 CStrPtr.null
        (fun _ => PipelineOutcome.err "x")).result.total_ms = 0)
  ∧ ((voiceflow_process true false 7 CStrPtr.null
        (fun _ => PipelineOutcome.err "x")).enteredBody = false) :=
  C3_null_inputs true false 7 CStrPtr.null (fun _ => PipelineOutcome.err "x")
    (Or.inl rfl)

/-- C9: a failure message with an interior NUL byte survives neither
error_result nor any failure path of voiceflow_process that uses it: the
result has success false and a null error_message, so the description is
silently dropped. -/
theorem C9_interior_nul_drops_message (msg : String)
    (h : hasInteriorNul msg = true) :
    ((error_result msg).success = false)
  ∧ ((error_result msg).error_message = none)
  ∧ (∀ (audioLen : Nat) (context : CStrPtr),
      (voiceflow_process false false audioLen context
          (fun _ => PipelineOutcome.err msg)).result.error_message = none) := by
  refine ⟨rfl, ?_, ?_⟩
  · simp [error_result, cStringNew, h]
  · intro audioLen context
    simp [voiceflow_process, error_result, cStringNew, h]

/-- C9 witness: the theorem instantiated at the concrete message with an
interior NUL byte. -/
theorem C9_witness :
    ((error_result "a\x00b").success = false)
  ∧ ((error_result "a\x00b").error_message = none)
  ∧ (∀ (audioLen : Nat) (context : CStrPtr),
      (voiceflow_process false false audioLen context
          (fun _ => PipelineOutcome.err "a\x00b")).result.error_message = none) :=
  C9_interior_nul_drops_message "a\x00b" (by decide)

/-- C4: voiceflow_init, absent a panic of the wrapped body, returns null on a
non-UTF-8 path, returns null and logs when loading the configuration
fails, returns null and logs when constructing the pipeline fails, and on
success of both steps returns a non-null handle owning exactly the
constructed pipeline. -/
theorem C4_init_behaviour {P : Type} (config_path : CStrPtr)
    (loadResult : Except String Config)
    (pipelineNew : Config → Except String P)
    (hpath : config_path ≠ CStrPtr.invalid) :
    ((voiceflow_init CStrPtr.invalid loadResult pipelineNew none).fst = none)
  ∧ (∀ e, loadResult = Except.error e →
      ((voiceflow_init config_path loadResult pipelineNew none).fst = none)
    ∧ (LogEvent.initLoadFailed e
        ∈ (voiceflow_init config_path loadResult pipelineNew none).snd))
  ∧ (∀ c e, loadResult = Except.ok c → pipelineNew c = Except.error e →
      ((voiceflow_init config_path loadResult pipelineNew none).fst = none)
    ∧ (LogEvent.pipelineCreateFailed e
        ∈ (voiceflow_init config_path loadResult pipelineNew none).snd))
  ∧ (∀ c p, loadResult = Except.ok c → pipelineNew c = Except.ok p →
      (voiceflow_init config_path loadResult pipelineNew none).fst
        = some { pipeline := p }) := by
  refine ⟨rfl, ?_, ?_, ?_⟩
  · intro e he
    subst he
    cases config_path <;> first
      | exact absurd rfl hpath
      | simp [voiceflow_init]
  · intro c e hc hp
    subst hc
    cases config_path <;> first
      | exact absurd rfl hpath
      | simp [voiceflow_init, hp]
  · intro c p hc hp
    subst hc
    cases config_path <;> first
      | exact absurd rfl hpath
      | simp [voiceflow_init, hp]

/-- C4 witness: the theorem instantiated with a concrete failing load, then a
concrete successful load whose pipeline construction succeeds. -/
theorem C4_witness :
    (((voiceflow_init CStrPtr.null (Except.error "bad config")
        (fun _ => Except.ok (37 : Nat)) none).fst = none)
    ∧ (LogEvent.initLoadFailed "bad config"
        ∈ (voiceflow_init CStrPtr.null (Except.error "bad config")
            (fun _ => Except.ok (37 : Nat)) none).snd))
  ∧ ((voiceflow_init CStrPtr.null (Except.ok defaultConfig)
        (fun _ => Except.ok (37 : Nat)) none).fst = some { pipeline := 37 }) :=
  ⟨(C4_init_behaviour CStrPtr.null (Except.error "bad config")
      (fun _ => Except.ok (37 : Nat)) (by decide)).2.1 "bad config" rfl,
   (C4_init_behaviour CStrPtr.null (Except.ok defaultConfig)
      (fun _ => Except.ok (37 : Nat)) (by decide)).2.2.2 defaultConfig 37 rfl rfl⟩

/-- Helper: any identifier the set-model parse table recognises is mapped to a
model whose id table entry is that same identifier. -/
theorem llmModelId_parseLlmModel (s : String) (m : LlmModel)
    (h : parseLlmModel s = some m) : llmModelId m = s := by
  unfold parseLlmModel at h
  split_ifs at h <;> (injection h with h; subst h; subst_vars; rfl)

/-- C5: for every identifier the set-model table recognises, setting it with a
successful persistence step and then reading the current model from the
persisted store returns that same identifier. -/
theorem C5_set_get_roundtrip (s : String) (m : LlmModel) (store : ConfigStore)
    (h : parseLlmModel s = some m) :
    ((voiceflow_set_model (CStrPtr.valid s) true store).fst = true)
  ∧ (voiceflow_current_model
        (voiceflow_set_model (CStrPtr.valid s) true store).snd = some s) := by
  have hid : llmModelId m = s := llmModelId_parseLlmModel s m h
  constructor
  · simp [voiceflow_set_model, h, configSave]
  · have hnul : hasInteriorNul s = false := by
      rw [← hid]; cases m <;> simp only [llmModelId] <;> decide
    simp [voiceflow_set_model, h, configSave, voiceflow_current_model,
      loadOrDefault, configLoad, hid, cStringNew, hnul]

/-- C5 witness: the round trip at the identifier "qwen3-4b" from an absent
store. -/
theorem C5_witness :
    ((voiceflow_set_model (CStrPtr.valid "qwen3-4b") true ConfigStore.absent).fst = true)
  ∧ (voiceflow_current_model
        (voiceflow_set_model (CStrPtr.valid "qwen3-4b") true ConfigStore.absent).snd
      = some "qwen3-4b") :=
  C5_set_get_roundtrip "qwen3-4b" LlmModel.Qwen3_4B ConfigStore.absent (by decide)

/-- C6: voiceflow_set_model on a null, non-UTF-8 or unrecognised identifier
returns false and leaves the configuration store untouched, so a
subsequent voiceflow_current_model reads the unchanged store. -/
theorem C6_set_model_rejects (store : ConfigStore) (saveOk : Bool) :
    (voiceflow_set_model CStrPtr.null saveOk store = (false, store))
  ∧ (voiceflow_set_model CStrPtr.invalid saveOk store = (false, store))
  ∧ (∀ s, parseLlmModel s = none →
      (voiceflow_set_model (CStrPtr.valid s) saveOk store = (false, store))
    ∧ (voiceflow_current_model (voiceflow_set_model (CStrPtr.valid s) saveOk store).snd
        = voiceflow_current_model store)) := by
  refine ⟨rfl, rfl, ?_⟩
  intro s hs
  have hv : voiceflow_set_model (CStrPtr.valid s) saveOk store = (false, store) := by
    simp [voiceflow_set_model, hs]
  exact ⟨hv, by rw [hv]⟩

/-- C6 witness: the theorem instantiated at an unrecognised identifier against
a concrete saved store. -/
theorem C6_witness :
    (voiceflow_set_model CStrPtr.null false (ConfigStore.saved defaultConfig)
      = (false, ConfigStore.saved defaultConfig))
  ∧ ((voiceflow_set_model (CStrPtr.valid "not-a-real-id") false
        (ConfigStore.saved defaultConfig) = (false, ConfigStore.saved defaultConfig))
    ∧ (voiceflow_current_model
          (voiceflow_set_model (CStrPtr.valid "not-a-real-id") false
            (ConfigStore.saved defaultConfig)).snd
        = voiceflow_current_model (ConfigStore.saved defaultConfig))) :=
  ⟨(C6_set_model_rejects (ConfigStore.saved defaultConfig) false).1,
   (C6_set_model_rejects (ConfigStore.saved defaultConfig) false).2.2
     "not-a-real-id" (by decide)⟩

/-- C7: both descriptor-by-index operations return the all-null, zero, false
sentinel descriptor instead of failing when the index is at or beyond the
catalog count: voiceflow_model_info for any index at or above
voiceflow_model_count, and voiceflow_moonshine_model_info for any index at
or above 2. -/
theorem C7_out_of_range_sentinel (models : List LlmModel)
    (displayName fname : LlmModel → String) (sizeGb : LlmModel → Rat)
    (probe : LlmModel → Bool) (store : ConfigStore)
    (displayNameM : MoonshineModel → String) (sizeMb : MoonshineModel → Nat)
    (downloadedFor : Config → MoonshineModel → Bool) :
    (∀ index, voiceflow_model_count models ≤ index →
      voiceflow_model_info models displayName fname sizeGb probe index
        = { id := none, display_name := none, filename := none,
            size_gb := 0, is_downloaded := false })
  ∧ (∀ index, voiceflow_moonshine_model_count ≤ index →
      voiceflow_moonshine_model_info store displayNameM sizeMb downloadedFor index
        = { id := none, display_name := none, size_mb := 0,
            is_downloaded := false }) := by
  constructor
  · intro index hindex
    have hlt : ¬ index < models.length := Nat.not_lt.mpr hindex
    simp [voiceflow_model_info, hlt]
  · intro index hindex
    match index, hindex with
    | n + 2, _ => rfl

/-- C7 witness: the sentinel at index 1 of a singleton catalog and at index 2
of the two-element Moonshine catalog. -/
theorem C7_witness :
    (voiceflow_model_info [LlmModel.Phi2] (fun _ => "Phi-2") (fun _ => "phi-2.gguf")
        (fun _ => 2) (fun _ => false) 1
      = { id := none, display_name := none, filename := none,
          size_gb := 0, is_downloaded := false })
  ∧ (voiceflow_moonshine_model_info ConfigStore.absent (fun _ => "Tiny")
        (fun _ => 190) (fun _ _ => false) 2
      = { id := none, display_name := none, size_mb := 0,
          is_downloaded := false }) :=
  ⟨(C7_out_of_range_sentinel [LlmModel.Phi2] (fun _ => "Phi-2") (fun _ => "phi-2.gguf")
      (fun _ => 2) (fun _ => false) ConfigStore.absent (fun _ => "Tiny")
      (fun _ => 190) (fun _ _ => false)).1 1 (by decide),
   (C7_out_of_range_sentinel [LlmModel.Phi2] (fun _ => "Phi-2") (fun _ => "phi-2.gguf")
      (fun _ => 2) (fun _ => false) ConfigStore.absent (fun _ => "Tiny")
      (fun _ => 190) (fun _ _ => false)).2 2 (by decide)⟩

/-- C8: voiceflow_model_download_url applied to the identifier "custom"
returns null whatever the collaborator repo and filename tables hold,
because the parse table has no arm for it; and voiceflow_current_model on
a store whose snapshot selects the custom variant still returns the
stable identifier "custom". -/
theorem C8_custom_no_url (hfRepo : LlmModel → Option String)
    (fname : LlmModel → String) (path : String) (se : SttEngine)
    (mm : MoonshineModel) :
    (voiceflow_model_download_url (CStrPtr.valid "custom") hfRepo fname = none)
  ∧ (voiceflow_current_model
        (ConfigStore.saved
          { llm_model := LlmModel.Custom path, stt_engine := se,
            moonshine_model := mm })
      = some "custom") := by
  constructor
  · have hp : parseLlmModel "custom" = none := by decide
    simp [voiceflow_model_download_url, hp]
  · rfl

/-- C10: each release function skips every null field, so releasing a result
or descriptor whose string fields are all null — in particular the
out-of-range sentinel descriptors — reclaims no buffer at all. -/
theorem C10_free_skips_null :
    (∀ r : VoiceFlowResult, r.formatted_text = none → r.raw_transcript = none →
      r.error_message = none → voiceflow_free_result r = [])
  ∧ (∀ (models : List LlmModel) (displayName fname : LlmModel → String)
        (sizeGb : LlmModel → Rat) (probe : LlmModel → Bool) (index : Nat),
      models.length ≤ index →
      voiceflow_free_model_info
          (voiceflow_model_info models displayName fname sizeGb probe index) = [])
  ∧ (∀ (store : ConfigStore) (displayNameM : MoonshineModel → String)
        (sizeMb : MoonshineModel → Nat)
        (downloadedFor : Config → MoonshineModel → Bool) (index : Nat),
      2 ≤ index →
      voiceflow_free_moonshine_model_info
          (voiceflow_moonshine_model_info store displayNameM sizeMb
            downloadedFor index) = []) := by
  refine ⟨?_, ?_, ?_⟩
  · intro r h1 h2 h3
    simp [voiceflow_free_result, h1, h2, h3]
  · intro models displayName fname sizeGb probe index hindex
    have hlt : ¬ index < models.length := Nat.not_lt.mpr hindex
    simp [voiceflow_free_model_info, voiceflow_model_info, hlt]
  · intro store displayNameM sizeMb downloadedFor index hindex
    match index, hindex with
    | n + 2, _ => rfl

/-- C10 witness: no buffer is reclaimed from an all-null result, from the
LLM-catalog sentinel at index 0 of an empty catalog, and from the
Moonshine sentinel at index 2. -/
theorem C10_witness :
    (voiceflow_free_result
        { success := false, formatted_text := none, raw_transcript := none,
          error_message := none, transcription_ms := 0, llm_ms := 0,
          total_ms := 0 } = [])
  ∧ (voiceflow_free_model_info
        (voiceflow_model_info [] (fun _ => "") (fun _ => "") (fun _ => 0)
          (fun _ => false) 0) = [])
  ∧ (voiceflow_free_moonshine_model_info
        (voiceflow_moonshine_model_info ConfigStore.corrupt (fun _ => "")
          (fun _ => 0) (fun _ _ => true) 2) = []) :=
  ⟨C10_free_skips_null.1
      { success := false, formatted_text := none, raw_transcript := none,
        error_message := none, transcription_ms := 0, llm_ms := 0,
        total_ms := 0 } rfl rfl rfl,
   C10_free_skips_null.2.1 [] (fun _ => "") (fun _ => "") (fun _ => 0)
      (fun _ => false) 0 (by decide),
   C10_free_skips_null.2.2 ConfigStore.corrupt (fun _ => "") (fun _ => 0)
      (fun _ _ => true) 2 (by decide)⟩
